import Mathlib

/-!
Verification of the `markdown-academic` Python binding layer
(`src/python/markdown_academic/core.py`) against its natural-language
specification.  The binding marshals configuration values into C structs,
calls an external native engine through ctypes, unmarshals result structs
into values or a typed error hierarchy, and manages cross-boundary
resource lifetimes.

Modelling conventions:
* Native byte strings (`c_char_p` values) are modelled at the level the
  binding observes them: a byte string either is the UTF-8 encoding of a
  unique host string, or it fails to decode.  The binding never inspects
  individual bytes of a `c_char_p`; it only decodes them or passes the
  pointer to a free function.
* Python truthiness of `Optional[str]` (`if s:`) is `False` exactly for
  `None` and for the empty string; this is modelled explicitly.
* The native engine itself lives in the repository's Rust library, which
  is not under `src/`; where a claim depends on its behaviour it is
  modelled abstractly as a structure of functions, with its protocol
  obligations stated as a `Prop` taken from the spec.
* Native calls made by an operation (including the free functions) are
  recorded in an explicit call list, so that "is freed exactly once" and
  "performs no native call" are statable.
-/

namespace MarkdownAcademic

/-- A byte string crossing the C boundary, as observed by the binding:
either a valid UTF-8 encoding of a string `s`, or an invalid byte
sequence on which `bytes.decode("utf-8")` raises.  An invalid byte
sequence is necessarily nonempty (the empty byte string is valid UTF-8),
which fixes its Python truthiness to `True`. -/
inductive CBytes where
  | valid (s : String)
  | invalid
deriving DecidableEq

/-- Result of Python `bytes.decode("utf-8")`: the decoded string, or
`none` when a `UnicodeDecodeError` is raised. -/
def CBytes.decodeUtf8 : CBytes → Option String
  | .valid s => some s
  | .invalid => none

/-- Python truthiness of a bytes value: falsy exactly for the empty byte
string (`.valid ""`). -/
def CBytes.isTruthy : CBytes → Bool
  | .valid s => s != ""
  | .invalid => true

/-- Python `str.encode("utf-8")`: total on host strings. -/
def utf8 (s : String) : CBytes := .valid s

/-- Python truthiness of an `Optional[str]`: `if s:` is `False` exactly
for `None` and `""`. -/
def strTruthy : Option String → Bool
  | none => false
  | some s => s != ""

/-- Python truthiness of an optional bytes value (`if result.error:` on a
`c_char_p` struct field, which ctypes presents as `bytes | None`). -/
def cOptTruthy : Option CBytes → Bool
  | none => false
  | some b => b.isTruthy

/-- Exception classes defined in `core.py` (`MarkdownAcademicError` and
its three subclasses), plus two further kinds named by the spec's error
taxonomy.  `unsupportedPlatform` and `libraryLoad` are modelled from the
spec: the spec names `UnsupportedPlatformError` and `LibraryLoadError`,
but the source defines no such classes; the constructors exist here so
that the spec's claim about them is statable against the code. -/
inductive ErrKind where
  | generic
  | parse
  | render
  | pdf
  | unsupportedPlatform
  | libraryLoad
deriving DecidableEq

/-- A raised binding-level exception: its class and its message. -/
structure MAErr where
  kind : ErrKind
  msg : String
deriving DecidableEq

/-- Outcome of a Python operation: a returned value, a raised
`MarkdownAcademicError` (or subclass), or an escaping
`UnicodeDecodeError` from `bytes.decode`. -/
inductive PyResult (α : Type) where
  | ok (a : α)
  | raise (e : MAErr)
  | unicodeDecodeError
deriving DecidableEq

/-- `_MdAcademicConfig`: C struct for render configuration. -/
structure CConfig where
  math_backend : Int
  standalone : Int
  base_path : Option CBytes
deriving DecidableEq

/-- `_MdAcademicResult`: C struct for render results. -/
structure CResult where
  data : Option CBytes
  error : Option CBytes
deriving DecidableEq

/-- `_MdAcademicPdfConfig`: C struct for PDF configuration. -/
structure CPdfConfig where
  paper_size : Int
  font_size : Int
  title_page : Int
  page_numbers : Int
  title : Option CBytes
  base_path : Option CBytes
deriving DecidableEq

/-- `_MdAcademicPdfResult`: C struct for PDF results.  The `data` field
is a nullable pointer to a byte buffer, modelled as the buffer contents;
`len` is the buffer length reported alongside it. -/
structure CPdfResult where
  data : Option (List Nat)
  len : Nat
  error : Option CBytes
deriving DecidableEq

/-- `MathBackend` enum of `core.py`. -/
inductive MathBackend where
  | katex
  | mathjax
  | mathml
deriving DecidableEq

/-- `int()` of the `MathBackend` IntEnum. -/
def MathBackend.toInt : MathBackend → Int
  | .katex => 0
  | .mathjax => 1
  | .mathml => 2

/-- `PaperSize` enum of `core.py`. -/
inductive PaperSize where
  | letter
  | a4
deriving DecidableEq

/-- `int()` of the `PaperSize` IntEnum. -/
def PaperSize.toInt : PaperSize → Int
  | .letter => 0
  | .a4 => 1

/-- `RenderConfig` dataclass with its defaults. -/
structure RenderConfig where
  math_backend : MathBackend := .katex
  standalone : Bool := false
  base_path : Option String := none
deriving DecidableEq

/-- `PdfConfig` dataclass with its defaults. -/
structure PdfConfig where
  paper_size : PaperSize := .letter
  font_size : Int := 11
  title_page : Bool := false
  page_numbers : Bool := true
  title : Option String := none
  base_path : Option String := none
deriving DecidableEq

/-- One call into the native library, as recorded by an operation.  Free
functions are included so that "freed exactly once" is statable; the
opaque document pointer argument of `render_html`/`free_document` is
elided (it is engine-owned and never inspected by the binding). -/
inductive NativeCall where
  | parseCall (text : String)
  | parseWithConfigCall (text : String) (c : CConfig)
  | renderHtmlCall (c : CConfig)
  | parseAndRenderCall (text : String) (c : CConfig)
  | renderPdfCall (text : String) (c : CPdfConfig)
  | renderPdfToFileCall (text : String) (c : CPdfConfig) (path : String)
  | freeResultCall (r : CResult)
  | freeStringCall (b : CBytes)
  | freePdfDataCall (d : List Nat) (len : Nat)
  | freeDocumentCall
deriving DecidableEq

/-- Prepends the native call that produced a result to the call trace of
the unwrapping of that result. -/
def with_call {α : Type} (c : NativeCall) (p : PyResult α × List NativeCall) :
    PyResult α × List NativeCall :=
  (p.1, c :: p.2)

/-- Whether `needle` begins `hay` (character-wise). -/
def beginsWith : List Char → List Char → Bool
  | [], _ => true
  | _ :: _, [] => false
  | a :: as, b :: bs => a == b && beginsWith as bs

/-- Whether `needle` occurs contiguously inside `hay`. -/
def containsSeq (needle : List Char) : List Char → Bool
  | [] => needle.isEmpty
  | c :: t => beginsWith needle (c :: t) || containsSeq needle t

/-- Python's substring test `needle in hay` on `str`. -/
def strIn (needle hay : String) : Bool :=
  containsSeq needle.toList hay.toList

/-- `_make_config`: marshals an optional `RenderConfig` into the C
struct.  `config.base_path.encode("utf-8") if config.base_path else
None`: the guard is Python truthiness, so `None` and `""` both marshal
to a null pointer. -/
def make_config (config : Option RenderConfig) : CConfig :=
  { math_backend := (config.getD {}).math_backend.toInt,
    standalone := if (config.getD {}).standalone then 1 else 0,
    base_path :=
      if strTruthy (config.getD {}).base_path then (config.getD {}).base_path.map utf8
      else none }

/-- `_make_pdf_config`: marshals an optional `PdfConfig` into the C
struct; `title` and `base_path` use the same truthiness guard as
`_make_config`. -/
def make_pdf_config (config : Option PdfConfig) : CPdfConfig :=
  { paper_size := (config.getD {}).paper_size.toInt,
    font_size := (config.getD {}).font_size,
    title_page := if (config.getD {}).title_page then 1 else 0,
    page_numbers := if (config.getD {}).page_numbers then 1 else 0,
    title :=
      if strTruthy (config.getD {}).title then (config.getD {}).title.map utf8
      else none,
    base_path :=
      if strTruthy (config.getD {}).base_path then (config.getD {}).base_path.map utf8
      else none }

/-- Error classification of `_handle_result`: `"Parse error" in msg`
checked first, then `"Render error" in msg`, otherwise the generic base
class; the original message is carried in every case. -/
def classifyError (msg : String) : MAErr :=
  if strIn "Parse error" msg then ⟨.parse, msg⟩
  else if strIn "Render error" msg then ⟨.render, msg⟩
  else ⟨.generic, msg⟩

/-- Data branch of `_handle_result`: `if result.data is None` (an
identity check, not truthiness) raises the generic error, otherwise the
data is decoded and returned. -/
def handle_data_branch : Option CBytes → PyResult String
  | none => .raise ⟨.generic, "No data returned"⟩
  | some b =>
    match b.decodeUtf8 with
    | some s => .ok s
    | none => .unicodeDecodeError

/-- Body of the `try:` block of `_handle_result`: `if result.error:` is
a truthiness check, so a null pointer and an empty error string both
fall through to the data branch. -/
def handle_result_body (r : CResult) : PyResult String :=
  match r.error with
  | some b =>
    if b.isTruthy then
      match b.decodeUtf8 with
      | some msg => .raise (classifyError msg)
      | none => .unicodeDecodeError
    else handle_data_branch r.data
  | none => handle_data_branch r.data

/-- `_handle_result`: unwraps a render result struct.  The `finally:`
block calls `mdacademic_free_result(result)` on every control path, so
the call trace always holds exactly that one free. -/
def handle_result (r : CResult) : PyResult String × List NativeCall :=
  (handle_result_body r, [.freeResultCall r])

/-- Branch of `render_pdf` taken when `result.error` is falsy:
`if not result.data or result.len == 0` raises, otherwise the buffer is
copied (`bytes(result.data[:result.len])`) and returned. -/
def pdf_no_error_branch (r : CPdfResult) : PyResult (List Nat) × List NativeCall :=
  match r.data with
  | none => (.raise ⟨.pdf, "No PDF data returned"⟩, [])
  | some d =>
    if r.len == 0 then (.raise ⟨.pdf, "No PDF data returned"⟩, [])
    else (.ok (List.take r.len d), [])

/-- Body of the `try:` block in `render_pdf`'s unwrapping: on a truthy
error the message is decoded, the error string freed, and `PdfError`
raised; if the decode itself raises, no free has happened yet. -/
def render_pdf_unwrap_body (r : CPdfResult) : PyResult (List Nat) × List NativeCall :=
  match r.error with
  | some b =>
    if b.isTruthy then
      match b.decodeUtf8 with
      | some msg => (.raise ⟨.pdf, msg⟩, [.freeStringCall b])
      | none => (.unicodeDecodeError, [])
    else pdf_no_error_branch r
  | none => pdf_no_error_branch r

/-- The `finally:` block of `render_pdf`'s unwrapping: frees the data
buffer only (`if result.data and result.len > 0`); the error string is
not covered by it. -/
def pdf_finally_frees (r : CPdfResult) : List NativeCall :=
  match r.data with
  | some d => if r.len > 0 then [.freePdfDataCall d r.len] else []
  | none => []

/-- The result-unwrapping portion of `render_pdf` (everything from the
`try:` to the end of the `finally:`). -/
def render_pdf_unwrap (r : CPdfResult) : PyResult (List Nat) × List NativeCall :=
  ((render_pdf_unwrap_body r).1, (render_pdf_unwrap_body r).2 ++ pdf_finally_frees r)

/-- The native engine's exported render entry points, abstracted over
the opaque parsed-document type `Doc`.  The engine is the repository's
Rust library, not under `src/`; the binding treats it as a fixed
C-compatible interface, so it is a parameter of the model. -/
structure Engine (Doc : Type) where
  parse : String → Option Doc
  render_html : Doc → CConfig → CResult
  parse_and_render : String → CConfig → CResult

/-- Modelled from the spec: the protocol contract of the native engine
(the repository's Rust library, which is not under `src/`).  Per the
external-interface section, `parse_and_render` is the one-shot
composition of `parse` and `render_html`, and a parse failure surfaces
as a result struct whose error message carries the parse-error
marker. -/
def Coherent {Doc : Type} (E : Engine Doc) : Prop :=
  ∀ t c,
    (∀ d, E.parse t = some d → E.parse_and_render t c = E.render_html d c) ∧
    (E.parse t = none →
      ∃ m, E.parse_and_render t c = ⟨none, some (.valid m)⟩ ∧ strIn "Parse error" m = true)

/-- `parse_and_render`: marshals the config, invokes the native one-shot
entry point, and unwraps via `_handle_result`. -/
def parse_and_render {Doc : Type} (E : Engine Doc) (text : String)
    (config : Option RenderConfig) : PyResult String × List NativeCall :=
  let c := make_config config
  with_call (.parseAndRenderCall text c) (handle_result (E.parse_and_render text c))

/-- `Document.render`: a released handle (`self._doc_ptr` is `None`)
raises the generic error without any native call; a live handle builds a
config struct whose `base_path` is always `None` (the method takes only
`math_backend` and `standalone`), invokes `mdacademic_render_html`, and
unwraps via `_handle_result`. -/
def document_render {Doc : Type} (E : Engine Doc) (doc_ptr : Option Doc)
    (mb : MathBackend) (standalone : Bool) : PyResult String × List NativeCall :=
  match doc_ptr with
  | none => (.raise ⟨.generic, "Document has been freed"⟩, [])
  | some d =>
    let c : CConfig := ⟨mb.toInt, if standalone then 1 else 0, none⟩
    with_call (.renderHtmlCall c) (handle_result (E.render_html d c))

/-- The round trip of the spec: `Document(text)` (constructed from the
text alone, so via `mdacademic_parse`; a null pointer raises
`ParseError("Failed to parse document")`) followed by `.render` with the
configuration's `math_backend` and `standalone`. -/
def document_pipeline {Doc : Type} (E : Engine Doc) (text : String)
    (cfg : RenderConfig) : PyResult String :=
  match E.parse text with
  | none => .raise ⟨.parse, "Failed to parse document"⟩
  | some d => (document_render E (some d) cfg.math_backend cfg.standalone).1

/-- The native call issued by `Document.__init__`: with a truthy
`base_path` it builds a config struct (`math_backend=0, standalone=0`)
and calls `mdacademic_parse_with_config`; otherwise (including
`base_path=""`) it calls plain `mdacademic_parse` with no config
struct. -/
def document_init_call (text : String) (base_path : Option String) : NativeCall :=
  if strTruthy base_path then
    .parseWithConfigCall text ⟨0, 0, base_path.map utf8⟩
  else .parseCall text

/-- Release of a `Document` handle, as performed identically by
`__exit__` and `__del__`: `if self._doc_ptr:` guards the native
`mdacademic_free_document` call, and the stored pointer is nulled
immediately after it. -/
def document_release {Doc : Type} (doc_ptr : Option Doc) :
    Option Doc × List NativeCall :=
  match doc_ptr with
  | some _ => (none, [.freeDocumentCall])
  | none => (none, [])

/-- A sequence of `n` successive release operations on a handle,
accumulating the native calls they make. -/
def release_seq {Doc : Type} : Nat → Option Doc → Option Doc × List NativeCall
  | 0, d => (d, [])
  | n + 1, d =>
    ((release_seq n (document_release d).1).1,
      (document_release d).2 ++ (release_seq n (document_release d).1).2)

/-- The native engine's optional (feature-gated) PDF entry points,
abstracted as functions; like `Engine`, the engine itself is outside
`src/`. -/
structure PdfEngine where
  render_pdf : String → CPdfConfig → CPdfResult
  render_pdf_to_file : String → CPdfConfig → String → Int

/-- The message of the `MarkdownAcademicError` raised by the PDF entry
points when the optional feature is unavailable. -/
def pdf_unavailable_msg : String :=
  "PDF support is not available. Rebuild the Rust library with: cargo build --release --features pdf"

/-- `render_pdf`: gated on `has_pdf` before any marshaling or native
call; otherwise marshals the config, invokes the native PDF entry point
and unwraps the buffer result. -/
def render_pdf_op (has_pdf : Bool) (E : PdfEngine) (text : String) (cfg : PdfConfig) :
    PyResult (List Nat) × List NativeCall :=
  if has_pdf then
    let c := make_pdf_config (some cfg)
    with_call (.renderPdfCall text c) (render_pdf_unwrap (E.render_pdf text c))
  else (.raise ⟨.generic, pdf_unavailable_msg⟩, [])

/-- `render_pdf_to_file`: gated on `has_pdf` before any marshaling or
native call; otherwise invokes the direct-to-file native entry point and
raises `PdfError` on a non-zero status. -/
def render_pdf_to_file_op (has_pdf : Bool) (E : PdfEngine) (text output_path : String)
    (cfg : PdfConfig) : PyResult Unit × List NativeCall :=
  if has_pdf then
    let c := make_pdf_config (some cfg)
    let ret := E.render_pdf_to_file text c output_path
    if ret = 0 then (.ok (), [.renderPdfToFileCall text c output_path])
    else (.raise ⟨.pdf, "Failed to write PDF to " ++ output_path⟩,
      [.renderPdfToFileCall text c output_path])
  else (.raise ⟨.generic, pdf_unavailable_msg⟩, [])

/-- Platform-specific library filename selection of `_get_library_path`:
an operating system outside the three known conventions raises the base
`MarkdownAcademicError`. -/
def lib_name_for (system : String) : Except MAErr String :=
  if system = "Linux" then .ok "libmarkdown_academic.so"
  else if system = "Darwin" then .ok "libmarkdown_academic.dylib"
  else if system = "Windows" then .ok "markdown_academic.dll"
  else .error ⟨.generic, "Unsupported platform: " ++ system⟩

/-- The search steps of `_get_library_path` after the environment
override: package directory, development release build, debug build,
then the bare filename for system-loader resolution.  The filesystem is
abstracted as an existence predicate on paths, and `Path` joining as
string concatenation. -/
def get_library_path_search (pathExists : String → Bool) (system packageDir : String) :
    Except MAErr String :=
  match lib_name_for system with
  | .error e => .error e
  | .ok lib_name =>
    if pathExists (packageDir ++ "/" ++ lib_name) then
      .ok (packageDir ++ "/" ++ lib_name)
    else if pathExists (packageDir ++ "/../../rust/target/release/" ++ lib_name) then
      .ok (packageDir ++ "/../../rust/target/release/" ++ lib_name)
    else if pathExists (packageDir ++ "/../../rust/target/debug/" ++ lib_name) then
      .ok (packageDir ++ "/../../rust/target/debug/" ++ lib_name)
    else .ok lib_name

/-- `_get_library_path`: a truthy `MARKDOWN_ACADEMIC_LIB` value that
exists wins; otherwise the platform search runs. -/
def get_library_path (env : Option String) (pathExists : String → Bool)
    (system packageDir : String) : Except MAErr String :=
  match env with
  | some p =>
    if p != "" then
      (if pathExists p then .ok p else get_library_path_search pathExists system packageDir)
    else get_library_path_search pathExists system packageDir
  | none => get_library_path_search pathExists system packageDir

/-- `_Library._load_library`'s `ctypes.CDLL` step: an `OSError` from the
dynamic loader (given abstractly as the `Except` argument) is wrapped in
the base `MarkdownAcademicError` whose message carries the attempted
path and the original loader error. -/
def load_library (dlopen : Except String Unit) (lib_path : String) : Except MAErr Unit :=
  match dlopen with
  | .ok _ => .ok ()
  | .error e =>
    .error ⟨.generic,
      "Failed to load markdown-academic library from " ++ lib_path ++
        ". Make sure the Rust library is built: cd rust && cargo build --release\nOriginal error: " ++ e⟩

/-- A concrete engine whose rendering depends on the `base_path` request
field, used to separate the two render pipelines.  It satisfies the
engine protocol (`Coherent`). -/
def E1 : Engine Unit :=
  { parse := fun _ => some (),
    render_html := fun _ c => ⟨some (.valid (if c.base_path = none then "A" else "B")), none⟩,
    parse_and_render := fun _ c => ⟨some (.valid (if c.base_path = none then "A" else "B")), none⟩ }

/-- E1 satisfies the engine protocol. -/
lemma E1_coherent : Coherent E1 := by
  intro t c
  exact ⟨fun d _ => rfl, fun h => Option.noConfusion h⟩

/-- A concrete engine on which every parse fails, used to compare the
error messages of the two render pipelines.  It satisfies the engine
protocol. -/
def E2 : Engine Unit :=
  { parse := fun _ => none,
    render_html := fun _ _ => ⟨none, none⟩,
    parse_and_render := fun _ _ => ⟨none, some (.valid "Parse error: bad input")⟩ }

/-- E2 satisfies the engine protocol. -/
lemma E2_coherent : Coherent E2 := by
  intro t c
  exact ⟨fun d hd => Option.noConfusion hd, fun _ => ⟨"Parse error: bad input", rfl, by decide⟩⟩

/-- A message containing the parse-error marker is nonempty (in the
Boolean form Python truthiness uses). -/
lemma parse_marker_nonempty (m : String) (h : strIn "Parse error" m = true) :
    (m != "") = true := by
  rcases eq_or_ne m "" with rfl | hm
  · exact absurd h (by decide)
  · exact bne_iff_ne.mpr hm

/-- Unwrapping a result struct whose error message carries the
parse-error marker raises `ParseError` with that message. -/
lemma handle_result_parse_marker (d : Option CBytes) (m : String)
    (h : strIn "Parse error" m = true) :
    (handle_result ⟨d, some (.valid m)⟩).1 = .raise ⟨.parse, m⟩ := by
  have hm : (m != "") = true := parse_marker_nonempty m h
  simp [handle_result, handle_result_body, CBytes.isTruthy, hm, CBytes.decodeUtf8,
    classifyError, h]

/-- Releasing an already-null handle any number of times makes no native
call and leaves the handle null. -/
lemma release_seq_none {Doc : Type} (n : Nat) :
    release_seq n (none : Option Doc) = (none, []) := by
  induction n with
  | zero => rfl
  | succ k ih => simp [release_seq, document_release, ih]

/-- C1: for every result struct received from a native call, the
corresponding native free function runs exactly once on every control
path of the unwrapping.  This holds for render results: the
`try/finally` of `_handle_result` emits exactly one
`mdacademic_free_result` on every path.  It fails for PDF results: when
the native error message fails to decode, `render_pdf` raises the decode
error before `mdacademic_free_string(result.error)` is reached, and the
`finally:` block frees only the data buffer, so no free of the error
string ever happens — the second conjunct evaluates the code at that
failing input and shows an empty free list. -/
theorem claim1_free_paths :
    (∀ r : CResult, (handle_result r).2 = [.freeResultCall r]) ∧
    render_pdf_unwrap ⟨none, 0, some .invalid⟩ = (.unicodeDecodeError, []) :=
  ⟨fun _ => rfl, by decide⟩

/-- C5 counterexample: rendering a released `Document` raises the base
error with message `"Document has been freed"` (capital D), not the
claimed `"document has been freed"`; the native call list is empty. -/
theorem claim5_counterexample :
    document_render E1 none .katex false =
      (.raise ⟨.generic, "Document has been freed"⟩, []) ∧
    "Document has been freed" ≠ "document has been freed" :=
  ⟨rfl, by decide⟩

/-- C5 amended: calling `render` on a released handle, for every engine
and every configuration, raises `MarkdownAcademicError` with message
`"Document has been freed"` and makes no native call. -/
theorem claim5_released_render_amended :
    ∀ (Doc : Type) (E : Engine Doc) (mb : MathBackend) (standalone : Bool),
      document_render E none mb standalone =
        (.raise ⟨.generic, "Document has been freed"⟩, []) :=
  fun _ _ _ _ => rfl

/-- C6: release is idempotent — after any release the stored pointer is
null, releasing an already-released handle is a no-op making no native
call, and any sequence of releases invokes the native free-document
function at most once. -/
theorem claim6_release_idempotent :
    ∀ (Doc : Type) (d : Option Doc) (n : Nat),
      (document_release d).1 = none ∧
      document_release (document_release d).1 = (none, ([] : List NativeCall)) ∧
      List.count NativeCall.freeDocumentCall (release_seq n d).2 ≤ 1 := by
  intro Doc d n
  refine ⟨?_, ?_, ?_⟩
  · cases d <;> rfl
  · cases d <;> rfl
  · cases d with
    | none => simp [release_seq_none]
    | some x =>
      cases n with
      | zero => simp [release_seq]
      | succ k => simp [release_seq, document_release, release_seq_none]

/-- C7 counterexample: with the optional feature unavailable, the PDF
entry point raises the base error and makes no native call, but its
message is the full rebuild hint, not the claimed
`"PDF support not available"`. -/
theorem claim7_counterexample :
    render_pdf_op false ⟨fun _ _ => ⟨none, 0, none⟩, fun _ _ _ => 0⟩ "t" {} =
      (.raise ⟨.generic, pdf_unavailable_msg⟩, []) ∧
    pdf_unavailable_msg ≠ "PDF support not available" :=
  ⟨rfl, by decide⟩

/-- C7 amended: when `has_pdf` is false, both PDF entry points raise
`MarkdownAcademicError` with the code's unavailable-feature message
(`"PDF support is not available. Rebuild the Rust library with: cargo
build --release --features pdf"`) and perform no native call, for every
engine, text, path and configuration. -/
theorem claim7_pdf_gate_amended :
    ∀ (E : PdfEngine) (text output_path : String) (cfg : PdfConfig),
      render_pdf_op false E text cfg = (.raise ⟨.generic, pdf_unavailable_msg⟩, []) ∧
      render_pdf_to_file_op false E text output_path cfg =
        (.raise ⟨.generic, pdf_unavailable_msg⟩, []) :=
  fun _ _ _ _ => ⟨rfl, rfl⟩

/-- C8 counterexample: a PDF result with no error and no data raises
`PdfError` with message `"No PDF data returned"`, not the claimed
`"no data returned"`. -/
theorem claim8_counterexample :
    (render_pdf_unwrap ⟨none, 0, none⟩).1 = .raise ⟨.pdf, "No PDF data returned"⟩ ∧
    "No PDF data returned" ≠ "no data returned" := by
  exact ⟨by decide, by decide⟩

/-- C8 amended: for every `PdfResultStruct` whose error field is falsy
(null or empty) and whose data buffer is a null pointer or has zero
length, `render_pdf` raises `PdfError("No PDF data returned")`. -/
theorem claim8_no_data_amended (r : CPdfResult) (he : cOptTruthy r.error = false)
    (hd : r.data = none ∨ r.len = 0) :
    (render_pdf_unwrap r).1 = .raise ⟨.pdf, "No PDF data returned"⟩ := by
  have hnb : (pdf_no_error_branch r).1 = .raise ⟨.pdf, "No PDF data returned"⟩ := by
    rcases hd with hd | hd
    · simp [pdf_no_error_branch, hd]
    · cases hda : r.data with
      | none => simp [pdf_no_error_branch, hda]
      | some d => simp [pdf_no_error_branch, hda, hd]
  have hbody : (render_pdf_unwrap_body r).1 = .raise ⟨.pdf, "No PDF data returned"⟩ := by
    cases herr : r.error with
    | none => simpa [render_pdf_unwrap_body, herr] using hnb
    | some b =>
      have hbt : b.isTruthy = false := by simpa [cOptTruthy, herr] using he
      simpa [render_pdf_unwrap_body, herr, hbt] using hnb
  simpa [render_pdf_unwrap] using hbody

/-- C8 witness: the amended statement at a concrete result with a
non-null but zero-length buffer. -/
theorem claim8_witness :
    (render_pdf_unwrap ⟨some [1, 2], 0, none⟩).1 = .raise ⟨.pdf, "No PDF data returned"⟩ :=
  claim8_no_data_amended ⟨some [1, 2], 0, none⟩ rfl (Or.inr rfl)

/-- C10: an optional string field given as `""` marshals exactly like an
absent field — the whole marshaled struct is equal for `some ""` and
`none` in `base_path` (render) and in `title`/`base_path` (PDF) — and a
`Document` constructed with `base_path=""` issues the plain
`mdacademic_parse` call with no config struct, just as with `None`. -/
theorem claim10_empty_string_like_none :
    ∀ (mb : MathBackend) (st : Bool) (ps : PaperSize) (fs : Int) (tp pn : Bool)
      (t : String) (o : Option String),
      make_config (some ⟨mb, st, some ""⟩) = make_config (some ⟨mb, st, none⟩) ∧
      make_pdf_config (some ⟨ps, fs, tp, pn, some "", o⟩) =
        make_pdf_config (some ⟨ps, fs, tp, pn, none, o⟩) ∧
      make_pdf_config (some ⟨ps, fs, tp, pn, o, some ""⟩) =
        make_pdf_config (some ⟨ps, fs, tp, pn, o, none⟩) ∧
      document_init_call t (some "") = .parseCall t ∧
      document_init_call t (some "") = document_init_call t none := by
  intro mb st ps fs tp pn t o
  refine ⟨?_, ?_, ?_, rfl, rfl⟩ <;> simp [make_config, make_pdf_config, strTruthy]

/-- C2 counterexample: the round trip fails in general.  With the
protocol-satisfying engine `E1`, whose rendering depends on the
`base_path` request field, `Document(text).render(cfg)` and
`parse_and_render(text, cfg)` differ for a config carrying a
`base_path` (the `render` method always marshals a null `base_path`).
With engine `E2`, on which parsing fails, both raise `ParseError` but
with different messages even for a `base_path`-free config. -/
theorem claim2_counterexample :
    Coherent E1 ∧
    document_pipeline E1 "x" ⟨.katex, false, some "b"⟩ ≠
      (parse_and_render E1 "x" (some ⟨.katex, false, some "b"⟩)).1 ∧
    Coherent E2 ∧
    document_pipeline E2 "x" ⟨.katex, false, none⟩ =
      .raise ⟨.parse, "Failed to parse document"⟩ ∧
    (parse_and_render E2 "x" (some ⟨.katex, false, none⟩)).1 =
      .raise ⟨.parse, "Parse error: bad input"⟩ ∧
    document_pipeline E2 "x" ⟨.katex, false, none⟩ ≠
      (parse_and_render E2 "x" (some ⟨.katex, false, none⟩)).1 :=
  ⟨E1_coherent, by decide, E2_coherent, by decide, by decide, by decide⟩

/-- C2 amended: for every engine satisfying the protocol and every
configuration whose `base_path` is absent, the two pipelines return the
same result, except that on a parse failure both raise `ParseError` but
with different messages (`"Failed to parse document"` from the
`Document` constructor versus the native message from
`parse_and_render`). -/
theorem claim2_round_trip_amended {Doc : Type} (E : Engine Doc) (hE : Coherent E)
    (t : String) (cfg : RenderConfig) (hbp : cfg.base_path = none) :
    document_pipeline E t cfg = (parse_and_render E t (some cfg)).1 ∨
    (∃ m, document_pipeline E t cfg = .raise ⟨.parse, "Failed to parse document"⟩ ∧
      (parse_and_render E t (some cfg)).1 = .raise ⟨.parse, m⟩) := by
  have hmc : make_config (some cfg) =
      ⟨cfg.math_backend.toInt, if cfg.standalone then 1 else 0, none⟩ := by
    simp [make_config, hbp, strTruthy]
  have e2 : (parse_and_render E t (some cfg)).1 =
      (handle_result (E.parse_and_render t (make_config (some cfg)))).1 := rfl
  cases hp : E.parse t with
  | some d =>
    left
    have hc := (hE t (make_config (some cfg))).1 d hp
    have e1 : document_pipeline E t cfg =
        (handle_result (E.render_html d
          ⟨cfg.math_backend.toInt, if cfg.standalone then 1 else 0, none⟩)).1 := by
      simp only [document_pipeline, hp]
      rfl
    rw [e1, e2, hc, hmc]
  | none =>
    right
    obtain ⟨m, hm, hmark⟩ := (hE t (make_config (some cfg))).2 hp
    refine ⟨m, ?_, ?_⟩
    · simp [document_pipeline, hp]
    · rw [e2, hm]
      exact handle_result_parse_marker none m hmark

/-- C2 witness: the amended statement at the concrete coherent engine
`E1` with a `base_path`-free configuration; the pipelines agree
outright. -/
theorem claim2_witness :
    document_pipeline E1 "x" ⟨.katex, false, none⟩ =
      (parse_and_render E1 "x" (some ⟨.katex, false, none⟩)).1 := by
  rcases claim2_round_trip_amended E1 E1_coherent "x" ⟨.katex, false, none⟩ rfl with h | h
  · exact h
  · rcases h with ⟨m, h1, h2⟩
    exact absurd h1 (by decide)

/-- C3 counterexample: on an operating system with no known filename
convention the locator raises the base `MarkdownAcademicError` (message
`"Unsupported platform: ..."`), and a loader failure raises the base
`MarkdownAcademicError` wrapping the path and the OS error — the source
defines no `UnsupportedPlatformError` or `LibraryLoadError` classes, so
neither failure carries a dedicated specialized type. -/
theorem claim3_counterexample :
    get_library_path none (fun _ => false) "FreeBSD" "/pkg" =
      .error ⟨.generic, "Unsupported platform: FreeBSD"⟩ ∧
    ErrKind.generic ≠ ErrKind.unsupportedPlatform ∧
    load_library (.error "dlopen failed") "/pkg/libmarkdown_academic.so" =
      .error ⟨.generic,
        "Failed to load markdown-academic library from /pkg/libmarkdown_academic.so. Make sure the Rust library is built: cd rust && cargo build --release\nOriginal error: dlopen failed"⟩ ∧
    ErrKind.generic ≠ ErrKind.libraryLoad :=
  ⟨rfl, by decide, rfl, by decide⟩

/-- C3 amended: when the environment override does not short-circuit and
the operating system is none of Linux, Darwin or Windows, locating fails
with the base `MarkdownAcademicError("Unsupported platform: <system>")`;
when the dynamic loader fails, loading fails with the base
`MarkdownAcademicError` whose message wraps the attempted path and the
OS loader error.  No dedicated subclasses exist. -/
theorem claim3_setup_errors_amended (env : Option String) (pathExists : String → Bool)
    (system packageDir : String)
    (henv : ∀ p, env = some p → p = "" ∨ pathExists p = false)
    (h1 : system ≠ "Linux") (h2 : system ≠ "Darwin") (h3 : system ≠ "Windows") :
    get_library_path env pathExists system packageDir =
      .error ⟨.generic, "Unsupported platform: " ++ system⟩ ∧
    ∀ (e lib_path : String), load_library (.error e) lib_path =
      .error ⟨.generic,
        "Failed to load markdown-academic library from " ++ lib_path ++
          ". Make sure the Rust library is built: cd rust && cargo build --release\nOriginal error: " ++ e⟩ := by
  have hsearch : get_library_path_search pathExists system packageDir =
      .error ⟨.generic, "Unsupported platform: " ++ system⟩ := by
    simp [get_library_path_search, lib_name_for, h1, h2, h3]
  refine ⟨?_, fun e lib_path => rfl⟩
  cases env with
  | none => simpa [get_library_path] using hsearch
  | some p =>
    rcases henv p rfl with hp | hp
    · subst hp
      simpa [get_library_path] using hsearch
    · cases hb : (p != "") <;> simp [get_library_path, hb, hp, hsearch]

/-- C3 witness: the amended statement at a concrete unknown platform and
a concrete loader failure. -/
theorem claim3_witness :
    get_library_path none (fun _ => false) "Plan9" "/pkg" =
      .error ⟨.generic, "Unsupported platform: Plan9"⟩ ∧
    load_library (.error "no such file") "/lib/x.so" =
      .error ⟨.generic,
        "Failed to load markdown-academic library from /lib/x.so. Make sure the Rust library is built: cd rust && cargo build --release\nOriginal error: no such file"⟩ := by
  have h := claim3_setup_errors_amended none (fun _ => false) "Plan9" "/pkg"
    (fun p hp => Option.noConfusion hp) (by decide) (by decide) (by decide)
  exact ⟨h.1, h.2 "no such file" "/lib/x.so"⟩

/-- C4 counterexample: a message containing both markers raises
`ParseError`, not `RenderError` (the parse marker is checked first), and
an empty error message raises nothing at all — the data is returned —
rather than raising the generic error. -/
theorem claim4_counterexample :
    (handle_result ⟨none, some (.valid "Parse error and Render error")⟩).1 =
      .raise ⟨.parse, "Parse error and Render error"⟩ ∧
    strIn "Render error" "Parse error and Render error" = true ∧
    ErrKind.parse ≠ ErrKind.render ∧
    (handle_result ⟨some (.valid "H"), some (.valid "")⟩).1 = .ok "H" :=
  ⟨by decide, by decide, by decide, by decide⟩

/-- C4 amended: for every nonempty native error message in a render
result, classification is by substring markers with the parse marker
taking precedence: a message containing `"Parse error"` raises
`ParseError`; one containing `"Render error"` but not the parse marker
raises `RenderError`; one containing neither raises the generic
`MarkdownAcademicError`; the original message is carried in every case.
An empty error string is treated as no error at all. -/
theorem claim4_classification_amended (d : Option CBytes) (msg : String) (h : msg ≠ "") :
    (handle_result ⟨d, some (.valid msg)⟩).1 = .raise (classifyError msg) ∧
    (strIn "Parse error" msg = true → classifyError msg = ⟨.parse, msg⟩) ∧
    (strIn "Parse error" msg = false → strIn "Render error" msg = true →
      classifyError msg = ⟨.render, msg⟩) ∧
    (strIn "Parse error" msg = false → strIn "Render error" msg = false →
      classifyError msg = ⟨.generic, msg⟩) := by
  have hm : (msg != "") = true := bne_iff_ne.mpr h
  refine ⟨?_, ?_, ?_, ?_⟩
  · simp [handle_result, handle_result_body, CBytes.isTruthy, hm, CBytes.decodeUtf8]
  · intro hp
    simp [classifyError, hp]
  · intro hp hr
    simp [classifyError, hp, hr]
  · intro hp hr
    simp [classifyError, hp, hr]

/-- C4 witness: the amended statement at a concrete render-error
message. -/
theorem claim4_witness :
    (handle_result ⟨none, some (.valid "Render error: bad block")⟩).1 =
      .raise ⟨.render, "Render error: bad block"⟩ := by
  have h := claim4_classification_amended none "Render error: bad block" (by decide)
  rw [h.1, h.2.2.1 (by decide) (by decide)]

/-- C9 counterexample: a present-but-empty optional string field
marshals to a null pointer, not to a pointer to its (empty) UTF-8
bytes. -/
theorem claim9_counterexample :
    (make_config (some ⟨.katex, false, some ""⟩)).base_path = none ∧
    (make_pdf_config (some ⟨.letter, 11, false, true, some "", none⟩)).title = none ∧
    (none : Option CBytes) ≠ some (utf8 "") :=
  ⟨by decide, by decide, by decide⟩

/-- C9 amended: for both marshalers and every optional string field
(`base_path` of the render config; `title` and `base_path` of the PDF
config), an absent field marshals to a null pointer and a present
non-empty field to a pointer to its UTF-8 bytes; a present empty string
marshals to a null pointer like an absent field.  Marshaling is a pure
function making no native call. -/
theorem claim9_optional_marshal_amended (cfg : RenderConfig) (pcfg : PdfConfig) :
    (cfg.base_path = none → (make_config (some cfg)).base_path = none) ∧
    (∀ s, cfg.base_path = some s → s ≠ "" →
      (make_config (some cfg)).base_path = some (utf8 s)) ∧
    (pcfg.title = none → (make_pdf_config (some pcfg)).title = none) ∧
    (∀ s, pcfg.title = some s → s ≠ "" →
      (make_pdf_config (some pcfg)).title = some (utf8 s)) ∧
    (pcfg.base_path = none → (make_pdf_config (some pcfg)).base_path = none) ∧
    (∀ s, pcfg.base_path = some s → s ≠ "" →
      (make_pdf_config (some pcfg)).base_path = some (utf8 s)) := by
  refine ⟨?_, ?_, ?_, ?_, ?_, ?_⟩
  · intro h
    simp [make_config, h, strTruthy]
  · intro s hs hne
    simp [make_config, hs, strTruthy, bne_iff_ne.mpr hne]
  · intro h
    simp [make_pdf_config, h, strTruthy]
  · intro s hs hne
    simp [make_pdf_config, hs, strTruthy, bne_iff_ne.mpr hne]
  · intro h
    simp [make_pdf_config, h, strTruthy]
  · intro s hs hne
    simp [make_pdf_config, hs, strTruthy, bne_iff_ne.mpr hne]

/-- C9 witness: the amended statement at concrete present and absent
fields. -/
theorem claim9_witness :
    (make_config (some ⟨.katex, false, some "docs"⟩)).base_path = some (utf8 "docs") ∧
    (make_config (some ⟨.katex, false, none⟩)).base_path = none ∧
    (make_pdf_config (some ⟨.letter, 11, false, true, some "My Title", none⟩)).title =
      some (utf8 "My Title") := by
  have h1 := claim9_optional_marshal_amended ⟨.katex, false, some "docs"⟩ {}
  have h2 := claim9_optional_marshal_amended ⟨.katex, false, none⟩ {}
  have h3 := claim9_optional_marshal_amended {} ⟨.letter, 11, false, true, some "My Title", none⟩
  exact ⟨h1.2.1 "docs" rfl (by decide), h2.1 rfl, h3.2.2.2.1 "My Title" rfl (by decide)⟩

end MarkdownAcademic
